import Mathlib

/-!
Verification of the astronomy-quiz registration server.

The definitions below are a shallow embedding of the TypeScript sources:
`src/server/routes.ts` (HTTP handlers and the admin-token scheme),
`src/server/storage.ts` (`DatabaseStorage`: passcode generation, inserts,
updates) and `src/shared/schema.ts` together with the database DDL in
`src/unnamed/part_002` (tables and their defaults).  Database state is a
record of lists, one per table; randomness, fresh ids, the wall clock and
platform primitives (HMAC, base64url, JSON, the zod email format check)
are explicit parameters.
-/

namespace QuizSite

/-! ## Admin token layer (src/server/routes.ts lines 15-35)

JS strings in this layer are modelled as lists of characters so that
`token.split(".")` and byte-wise tampering can be reasoned about
structurally. -/

/-- A JS string, as a list of characters. -/
abbrev Str := List Char

/-- Byte length of a string under UTF-8, as computed by `Buffer.from(s)`
followed by `Buffer.length`. -/
def byteLen (s : Str) : Nat := (s.map Char.utf8Size).sum

/-- Embedding of `token.split(".")`: splits at every dot, keeping empty
segments, exactly like `String.prototype.split` with a one-character
separator. -/
def splitOnDot : Str → List Str
  | [] => [[]]
  | c :: rest =>
    match splitOnDot rest with
    | [] => if c = '.' then [[], []] else [[c]]
    | h :: t => if c = '.' then [] :: h :: t else (c :: h) :: t

/-- The decoded JSON body of an admin token: the caller-supplied payload
fields plus the `exp` field added by `signAdminToken`.  `exp = none` models
a decoded object whose `exp` member is missing or not a number, i.e. the
`typeof body.exp !== "number"` branch of `verifyAdminToken`. -/
structure TokenBody where
  payload : List (String × String)
  exp : Option Int
deriving Repr, DecidableEq

/-- Embedding of `signAdminToken` (src/server/routes.ts:16-21).  `enc`
stands for the platform primitive
`Buffer.from(JSON.stringify(body)).toString("base64url")` and `hmac` for
`crypto.createHmac("sha256", ADMIN_TOKEN_SECRET).update(encoded).digest("base64url")`;
both are external collaborators, passed as parameters.  `now` is
`Date.now()` and `ttl` the `ttlMs` argument. -/
def signAdminToken (enc : TokenBody → Str) (hmac : Str → Str)
    (now ttl : Int) (payload : List (String × String)) : Str :=
  let encoded := enc ⟨payload, some (now + ttl)⟩
  encoded ++ '.' :: hmac encoded

/-- Outcome of `verifyAdminToken`: a decoded payload, `null`, or an
uncaught exception escaping the function. -/
inductive VerifyResult where
  | payload (b : TokenBody)
  | nullRes
  | threw
deriving Repr, DecidableEq

/-- Embedding of `verifyAdminToken` (src/server/routes.ts:22-35).  `dec`
stands for `JSON.parse(Buffer.from(encoded, "base64url").toString())`,
returning `none` when `JSON.parse` throws (that call sits inside the
`try`, so its failure becomes `null`).  `threw` records the uncaught
`RangeError` raised by `crypto.timingSafeEqual` when the two buffers
differ in byte length: that call (line 27) is outside the `try` block, so
the error escapes the function. -/
def verifyAdminToken (dec : Str → Option TokenBody) (hmac : Str → Str)
    (now : Int) (token : Option Str) : VerifyResult :=
  match token with
  | none => .nullRes
  | some t =>
    if t = [] then .nullRes
    else
      let parts := splitOnDot t
      let encoded := parts.getD 0 []
      let sig := parts.getD 1 []
      if encoded = [] ∨ sig = [] then .nullRes
      else
        let expected := hmac encoded
        if byteLen sig ≠ byteLen expected then .threw
        else if sig ≠ expected then .nullRes
        else
          match dec encoded with
          | none => .nullRes
          | some body =>
            match body.exp with
            | none => .nullRes
            | some e => if now > e then .nullRes else .payload body

/-! ## Data model (src/shared/schema.ts, DDL in src/unnamed/part_002) -/

/-- Row of the `participants` table (src/shared/schema.ts:12-25). -/
structure Participant where
  id : String
  name : String
  email : String
  phone : String
  institution : Option String
  passcode : String
  mode : String
  schoolId : Option String
  subject : Option String
  isLeader : Bool
  hasCompletedQuiz : Bool
  registeredAt : Nat
deriving Repr, DecidableEq

/-- Row of the `schools` table (src/shared/schema.ts:6-10). -/
structure School where
  id : String
  name : String
  createdAt : Nat
deriving Repr, DecidableEq

/-- Row of the `questions` table as stored in the database: the columns of
src/shared/schema.ts:27-35 plus the `mode` (default `'both'`) and
`subject` (nullable) columns created by the DDL in
src/unnamed/part_002:52-65, which the drizzle schema does not map.  The
`options` JSON object is spread into its four fixed keys A-D. -/
structure QuestionRow where
  id : String
  text : String
  optionA : String
  optionB : String
  optionC : String
  optionD : String
  correctAnswer : String
  timeLimit : Int
  marks : Int
  orderIndex : Int
  mode : String
  subject : Option String
deriving Repr, DecidableEq

/-- A question as selected through the drizzle schema
(src/shared/schema.ts:27-35): exactly the mapped columns.  `mode` and
`subject` are not among them, while `correctAnswer` is. -/
structure Question where
  id : String
  text : String
  optionA : String
  optionB : String
  optionC : String
  optionD : String
  correctAnswer : String
  timeLimit : Int
  marks : Int
  orderIndex : Int
deriving Repr, DecidableEq

/-- The projection applied by every `db.select().from(questions)`. -/
def selectQuestion (q : QuestionRow) : Question :=
  ⟨q.id, q.text, q.optionA, q.optionB, q.optionC, q.optionD,
   q.correctAnswer, q.timeLimit, q.marks, q.orderIndex⟩

/-- Row of the `quiz_submissions` table (src/shared/schema.ts:37-45).
`answers` is the JSON mapping questionId to the chosen option letter. -/
structure QuizSubmission where
  id : String
  participantId : String
  answers : List (String × String)
  score : Int
  totalMarks : Int
  timeTaken : Int
  completedAt : Nat
deriving Repr, DecidableEq

/-- The `system_settings` singleton row (src/shared/schema.ts:47-52). -/
structure SystemSettings where
  soloRegistrationOpen : Bool
  schoolRegistrationOpen : Bool
  quizActive : Bool
deriving Repr, DecidableEq

/-- The backing store: one list per table, in insertion order. -/
structure Store where
  participants : List Participant
  schools : List School
  questions : List QuestionRow
  submissions : List QuizSubmission
deriving Repr, DecidableEq

/-! ## Passcode generation and participant creation
(src/server/storage.ts, `DatabaseStorage`) -/

/-- The alphabet `'ABCDEFGHIJKLMNOPQRSTUVWXYZ0123456789'` of
`generatePasscode` (src/server/storage.ts:412). -/
def passcodeChars : List Char := "ABCDEFGHIJKLMNOPQRSTUVWXYZ0123456789".toList

/-- Embedding of `generatePasscode` (src/server/storage.ts:411-418): six
characters drawn from `passcodeChars`.  `rng i` models the i-th value of
`Math.floor(Math.random() * chars.length)`; the `% 36` reduction mirrors
that this value always lies in `[0, 36)`.  `k` is the index of the first
draw consumed by this call. -/
def generatePasscode (rng : Nat → Nat) (k : Nat) : String :=
  String.mk ((List.range 6).map (fun i => passcodeChars.getD (rng (k + i) % 36) 'A'))

/-- Embedding of `getParticipantByPasscode` (src/server/storage.ts:426-429). -/
def getParticipantByPasscode (store : Store) (pc : String) : Option Participant :=
  store.participants.find? (fun p => p.passcode == pc)

/-- The argument record of `createParticipant`: the insertable participant
columns (src/shared/schema.ts:54-59 plus the mode/school columns the
school flow supplies; the solo route inserts with `mode = 'solo'`). -/
structure InsertParticipant where
  name : String
  email : String
  phone : String
  institution : Option String
  mode : String
  schoolId : Option String
  subject : Option String
  isLeader : Bool
deriving Repr, DecidableEq

/-- Embedding of `createParticipant` (src/server/storage.ts:431-447):
generate a passcode, regenerate while some participant already holds it
(the do/while loop), then insert the row with `hasCompletedQuiz` and
`registeredAt` filled from their column defaults.  The unbounded loop is
modelled with `fuel`; `none` means the loop was not observed to terminate
within `fuel` rounds.  `newId` models `gen_random_uuid()` and `now` the
insertion timestamp. -/
def createParticipant (rng : Nat → Nat) (newId : String) (now : Nat)
    (data : InsertParticipant) : Nat → Nat → Store → Option (Participant × Store)
  | 0, _, _ => none
  | fuel + 1, k, store =>
    let pc := generatePasscode rng k
    match getParticipantByPasscode store pc with
    | some _ => createParticipant rng newId now data fuel (k + 6) store
    | none =>
      let p : Participant :=
        { id := newId, name := data.name, email := data.email,
          phone := data.phone, institution := data.institution,
          passcode := pc, mode := data.mode, schoolId := data.schoolId,
          subject := data.subject, isLeader := data.isLeader,
          hasCompletedQuiz := false, registeredAt := now }
      some (p, { store with participants := store.participants ++ [p] })

/-- A `Partial<Participant>` as accepted by `updateParticipant`
(src/server/storage.ts:449-456): every column optional, `none` meaning the
field is absent from the update object. -/
structure ParticipantUpdate where
  id : Option String
  name : Option String
  email : Option String
  phone : Option String
  institution : Option (Option String)
  passcode : Option String
  mode : Option String
  schoolId : Option (Option String)
  subject : Option (Option String)
  isLeader : Option Bool
  hasCompletedQuiz : Option Bool
  registeredAt : Option Nat
deriving Repr, DecidableEq

/-- Applies an update object to a row, drizzle `update().set(updates)`. -/
def applyUpdate (p : Participant) (u : ParticipantUpdate) : Participant :=
  { id := u.id.getD p.id, name := u.name.getD p.name,
    email := u.email.getD p.email, phone := u.phone.getD p.phone,
    institution := u.institution.getD p.institution,
    passcode := u.passcode.getD p.passcode, mode := u.mode.getD p.mode,
    schoolId := u.schoolId.getD p.schoolId,
    subject := u.subject.getD p.subject,
    isLeader := u.isLeader.getD p.isLeader,
    hasCompletedQuiz := u.hasCompletedQuiz.getD p.hasCompletedQuiz,
    registeredAt := u.registeredAt.getD p.registeredAt }

/-- Embedding of `updateParticipant` (src/server/storage.ts:449-456):
update the row whose id matches; rows with other ids are untouched. -/
def updateParticipant (store : Store) (pid : String) (u : ParticipantUpdate) : Store :=
  { store with participants :=
      store.participants.map (fun p => if p.id == pid then applyUpdate p u else p) }

/-- The update object `{ hasCompletedQuiz: true }` passed by the
quiz-submission route (src/server/routes.ts:167). -/
def completedUpdate : ParticipantUpdate :=
  ⟨none, none, none, none, none, none, none, none, none, none, some true, none⟩

/-! ## Questions route (src/server/routes.ts:152-159,
src/server/storage.ts:473-475) -/

/-- Ordering used by `orderBy(questions.orderIndex)`. -/
def questionLE (a b : Question) : Prop := a.orderIndex ≤ b.orderIndex

instance : DecidableRel questionLE := fun a b =>
  inferInstanceAs (Decidable (a.orderIndex ≤ b.orderIndex))

instance : IsTotal Question questionLE :=
  ⟨fun a b => Int.le_total a.orderIndex b.orderIndex⟩

instance : IsTrans Question questionLE :=
  ⟨fun _ _ _ hab hbc => le_trans hab hbc⟩

/-- Embedding of `getAllQuestions` (src/server/storage.ts:473-475):
`db.select().from(questions).orderBy(questions.orderIndex)` — every row,
projected through the drizzle schema and sorted by `orderIndex`
ascending. -/
def getAllQuestions (store : Store) : List Question :=
  List.insertionSort questionLE (store.questions.map selectQuestion)

/-- A JSON value as produced by `res.json`; the `options` column keeps its
four fixed keys. -/
inductive JVal where
  | str (s : String)
  | num (n : Int)
  | opts (a b c d : String)
deriving Repr, DecidableEq

/-- The JSON object serialized for one question row by `res.json(qs)`
(src/server/routes.ts:155): one key per drizzle-schema column. -/
def questionToJson (q : Question) : List (String × JVal) :=
  [("id", .str q.id), ("text", .str q.text),
   ("options", .opts q.optionA q.optionB q.optionC q.optionD),
   ("correctAnswer", .str q.correctAnswer),
   ("timeLimit", .num q.timeLimit), ("marks", .num q.marks),
   ("orderIndex", .num q.orderIndex)]

/-- The response body of `GET /api/questions` (src/server/routes.ts:152-159):
the handler ignores the request entirely and serializes `getAllQuestions`. -/
def getQuestionsResponse (store : Store) : List (List (String × JVal)) :=
  (getAllQuestions store).map questionToJson

/-! ## Quiz submission route (src/server/routes.ts:162-175,
src/shared/schema.ts:65-68, src/server/storage.ts:514-528) -/

/-- The JSON body of `POST /api/quiz-submissions` before validation; each
field is `none` when absent.  `insertQuizSubmissionSchema`
(src/shared/schema.ts:65-68) omits only `id` and `completedAt`, so
`participantId`, `answers`, `score`, `totalMarks` and `timeTaken` are all
required from the client. -/
structure SubmissionBody where
  participantId : Option String
  answers : Option (List (String × String))
  score : Option Int
  totalMarks : Option Int
  timeTaken : Option Int
deriving Repr, DecidableEq

/-- Outcome of `POST /api/quiz-submissions`: the stored row (200), or the
400 sent when `insertQuizSubmissionSchema.parse` throws. -/
inductive SubmissionResult where
  | ok (sub : QuizSubmission)
  | zod400
deriving Repr, DecidableEq

/-- Embedding of the `POST /api/quiz-submissions` handler
(src/server/routes.ts:162-175): parse the body against
`insertQuizSubmissionSchema`, insert the row exactly as parsed
(`createQuizSubmission`, src/server/storage.ts:514-528, stores the
client-sent `score` and `totalMarks` verbatim), then flip
`hasCompletedQuiz` on the named participant.  No lookup of the
participant and no check of `hasCompletedQuiz` happens anywhere in the
handler. -/
def postQuizSubmissions (now : Nat) (newId : String) (store : Store)
    (body : SubmissionBody) : SubmissionResult × Store :=
  match body.participantId, body.answers, body.score, body.totalMarks, body.timeTaken with
  | some pid, some ans, some sc, some tm, some tt =>
    let sub : QuizSubmission :=
      { id := newId, participantId := pid, answers := ans, score := sc,
        totalMarks := tm, timeTaken := tt, completedAt := now }
    let store1 := { store with submissions := store.submissions ++ [sub] }
    (.ok sub, updateParticipant store1 pid completedUpdate)
  | _, _, _, _, _ => (.zod400, store)

/-! ## Solo registration route (src/server/routes.ts:50-74) -/

/-- The JSON body of `POST /api/participants` before validation. -/
structure SoloBody where
  name : Option String
  email : Option String
  phone : Option String
  institution : Option String
deriving Repr, DecidableEq

/-- Outcome of `POST /api/participants`. -/
inductive SoloResult where
  | ok (newParticipants : List Participant)
  | closed403
  | invalid400
deriving Repr, DecidableEq

/-- Embedding of the `POST /api/participants` handler
(src/server/routes.ts:50-74).  `emailOk` models `z.string().email()`, an
external zod primitive.  The inline schema requires `name` (min 1),
`email` (email format) and `phone` (min 1); `institution` is optional.
Any error — zod or storage — lands in the catch and yields 400
(lines 68-73), so passcode-loop non-termination is also mapped to 400. -/
def postParticipants (emailOk : String → Bool) (rng : Nat → Nat) (fuel : Nat)
    (newId : String) (now : Nat) (settings : SystemSettings)
    (store : Store) (body : SoloBody) : SoloResult × Store :=
  if !settings.soloRegistrationOpen then (.closed403, store)
  else
    match body.name, body.email, body.phone with
    | some nm, some em, some ph =>
      if 1 ≤ nm.length ∧ emailOk em = true ∧ 1 ≤ ph.length then
        match createParticipant rng newId now
            ⟨nm, em, ph, body.institution, "solo", none, none, false⟩ fuel 0 store with
        | some (p, store') => (.ok [p], store')
        | none => (.invalid400, store)
      else (.invalid400, store)
    | _, _, _ => (.invalid400, store)

/-! ## School registration route (src/server/routes.ts:77-130) -/

/-- The five fixed subjects (src/server/routes.ts:13). -/
def SUBJECTS : List String :=
  ["Astrophysics", "Observational Astronomy", "Rocketry", "Cosmology",
   "General Astronomy"]

/-- One member object of the request body before validation. -/
structure RawMember where
  name : Option String
  email : Option String
  phone : Option String
  institution : Option String
  subject : Option String
  isLeader : Option Bool
deriving Repr, DecidableEq

/-- The JSON body of `POST /api/schools/register` before validation. -/
structure SchoolRegBody where
  schoolName : Option String
  members : Option (List RawMember)
deriving Repr, DecidableEq

/-- One zod issue of `schoolRegistrationSchema.parse`
(src/server/routes.ts:84-97), identified by the rule it reports. -/
inductive ZodIssue where
  | schoolNameMissing
  | schoolNameEmpty
  | membersMissing
  | wrongMemberCount
  | memberFieldMissing (idx : Nat) (field : String)
  | memberFieldEmpty (idx : Nat) (field : String)
  | invalidEmail (idx : Nat)
  | invalidSubject (idx : Nat)
deriving Repr, DecidableEq

/-- A validated member, as consumed by `registerSchoolWithMembers`. -/
structure MemberData where
  name : String
  email : String
  phone : String
  institution : Option String
  subject : String
  isLeader : Bool
deriving Repr, DecidableEq

/-- The zod issues reported for one member object: `name` min 1,
`email()` format, `phone` min 1, `subject` drawn from `SUBJECTS`
(`z.enum`), `isLeader` boolean (src/server/routes.ts:88-94). -/
def memberIssues (emailOk : String → Bool) (idx : Nat) (m : RawMember) : List ZodIssue :=
  (match m.name with
   | none => [.memberFieldMissing idx "name"]
   | some s => if 1 ≤ s.length then [] else [.memberFieldEmpty idx "name"]) ++
  (match m.email with
   | none => [.memberFieldMissing idx "email"]
   | some s => if emailOk s then [] else [.invalidEmail idx]) ++
  (match m.phone with
   | none => [.memberFieldMissing idx "phone"]
   | some s => if 1 ≤ s.length then [] else [.memberFieldEmpty idx "phone"]) ++
  (match m.subject with
   | none => [.memberFieldMissing idx "subject"]
   | some s => if s ∈ SUBJECTS then [] else [.invalidSubject idx]) ++
  (match m.isLeader with
   | none => [.memberFieldMissing idx "isLeader"]
   | some _ => [])

/-- Reads the fields of a member that produced no issues; the defaults are
never reached on issue-free input. -/
def forceMember (m : RawMember) : MemberData :=
  ⟨m.name.getD "", m.email.getD "", m.phone.getD "", m.institution,
   m.subject.getD "", m.isLeader.getD false⟩

/-- The zod issues reported for the members array: the `.length(5)` check
plus the per-member issues (src/server/routes.ts:86-96). -/
def memberListIssues (emailOk : String → Bool) (ms : List RawMember) : List ZodIssue :=
  (if ms.length = 5 then [] else [.wrongMemberCount]) ++
  (ms.enum.map (fun p => memberIssues emailOk p.1 p.2)).flatten

/-- Embedding of `schoolRegistrationSchema.parse`
(src/server/routes.ts:84-99): `schoolName` min 1, `members` an array of
exactly 5 member objects; all issues are collected and reported
together. -/
def parseSchoolBody (emailOk : String → Bool) (body : SchoolRegBody) :
    Except (List ZodIssue) (String × List MemberData) :=
  match body.schoolName, body.members with
  | some nm, some ms =>
    let issues := (if 1 ≤ nm.length then [] else [ZodIssue.schoolNameEmpty]) ++
      memberListIssues emailOk ms
    if issues = [] then .ok (nm, ms.map forceMember) else .error issues
  | none, some ms => .error ([ZodIssue.schoolNameMissing] ++ memberListIssues emailOk ms)
  | some nm, none =>
    .error ((if 1 ≤ nm.length then [] else [ZodIssue.schoolNameEmpty]) ++
      [ZodIssue.membersMissing])
  | none, none => .error [ZodIssue.schoolNameMissing, ZodIssue.membersMissing]

/-- Inserts the member participants one after another, used by
`registerSchoolWithMembers`; `none` aborts the transaction. -/
def insertMembers (rng : Nat → Nat) (fuel : Nat) (now : Nat) (schoolId : String) :
    List MemberData → List String → Store → Option (List Participant × Store)
  | [], _, s => some ([], s)
  | m :: ms, mid :: mids, s =>
    match createParticipant rng mid now
        ⟨m.name, m.email, m.phone, m.institution, "school", some schoolId,
         some m.subject, m.isLeader⟩ fuel 0 s with
    | none => none
    | some (p, s1) =>
      match insertMembers rng fuel now schoolId ms mids s1 with
      | none => none
      | some (ps, s2) => some (p :: ps, s2)
  | _ :: _, [], _ => none

/-- Modelled from the spec: `storage.registerSchoolWithMembers` is invoked
by the route (src/server/routes.ts:113) but its implementation is not
present under src/ — only its callers are.  Per spec section 4.2 it
creates the School row, then the member Participant rows, each with a
fresh unique passcode, `mode = school` and `schoolId` set, all inside one
atomic transaction: if any step fails, the entire registration (school and
any already-inserted members) is rolled back.  Failure is `none`, and the
caller then keeps its unmodified store, which models the rollback.  `ids`
supplies the generated row ids (school first). -/
def registerSchoolWithMembers (rng : Nat → Nat) (fuel : Nat) (ids : List String)
    (now : Nat) (store : Store) (schoolName : String) (members : List MemberData) :
    Option (School × List Participant × Store) :=
  match ids with
  | [] => none
  | schoolId :: memberIds =>
    let school : School := ⟨schoolId, schoolName, now⟩
    let store1 := { store with schools := store.schools ++ [school] }
    match insertMembers rng fuel now schoolId members memberIds store1 with
    | none => none
    | some (ps, store2) => some (school, ps, store2)

/-- Outcome of `POST /api/schools/register`, one constructor per distinct
response of the handler; `leader400` and `subject400` carry the messages
naming the leader rule and the distinct-subject rule
(src/server/routes.ts:102-111). -/
inductive SchoolRegResult where
  | ok (school : School) (views : List (String × String × Option String))
  | closed403
  | zod400 (issues : List ZodIssue)
  | leader400
  | subject400
  | server500
deriving Repr, DecidableEq

/-- Embedding of the `POST /api/schools/register` handler
(src/server/routes.ts:77-130): feature gate, zod parse, the
exactly-one-leader check, the five-distinct-subjects check
(`new Set(memberSubjects).size !== 5`), then the storage call; a storage
failure reaches the catch as a non-zod error and yields 500 with the
store unchanged. -/
def postSchoolsRegister (emailOk : String → Bool) (rng : Nat → Nat) (fuel : Nat)
    (ids : List String) (now : Nat) (settings : SystemSettings)
    (store : Store) (body : SchoolRegBody) : SchoolRegResult × Store :=
  if !settings.schoolRegistrationOpen then (.closed403, store)
  else
    match parseSchoolBody emailOk body with
    | .error issues => (.zod400 issues, store)
    | .ok (schoolName, members) =>
      if (members.filter (fun m => m.isLeader)).length ≠ 1 then (.leader400, store)
      else if (members.map (fun m => m.subject)).dedup.length ≠ 5 then (.subject400, store)
      else
        match registerSchoolWithMembers rng fuel ids now store schoolName members with
        | some (school, ps, store') =>
          (.ok school (ps.map (fun p => (p.name, p.passcode, p.subject))), store')
        | none => (.server500, store)

/-! ## Claim-side definitions from the spec

These two definitions follow the words of the spec, not the source; they
exist to be compared against the embedded code. -/

/-- Ordering of stored question rows by `orderIndex`. -/
def rowLE (a b : QuestionRow) : Prop := a.orderIndex ≤ b.orderIndex

instance : DecidableRel rowLE := fun a b =>
  inferInstanceAs (Decidable (a.orderIndex ≤ b.orderIndex))

/-- Claim-side definition following spec section 4.3
(`QuizEligibilityFilter.selectQuestions`): for a solo participant the
questions with `mode == solo` and empty subject; for a school participant
the questions with `mode` team or both whose subject is empty or equals
the participant subject; ordered by `orderIndex` ascending. -/
def specEligibleQuestions (p : Participant) (rows : List QuestionRow) : List QuestionRow :=
  let keep : QuestionRow → Bool := fun q =>
    if p.mode == "solo" then q.mode == "solo" && q.subject == none
    else (q.mode == "team" || q.mode == "both") &&
         (q.subject == none || q.subject == p.subject)
  List.insertionSort rowLE (rows.filter keep)

/-- Claim-side definition following spec section 4.4 (`ScoringEngine`):
`totalMarks` is the sum of `marks` over the eligible questions. -/
def specTotalMarks (qs : List QuestionRow) : Int :=
  (qs.map (fun q => q.marks)).sum

/-- Claim-side definition following spec section 4.4 (`ScoringEngine`):
the sum of `marks` over the eligible questions whose id maps, in the
submitted answers, to a letter equal to that question's
`correctAnswer`. -/
def specScore (answers : List (String × String)) (qs : List QuestionRow) : Int :=
  ((qs.filter (fun q => answers.lookup q.id == some q.correctAnswer)).map
    (fun q => q.marks)).sum

/-! ## Concrete data used by counterexamples and witnesses

The five question rows are the repository's own sample data
(`initializeSampleQuestions`, src/server/storage.ts:339-409), with the
`mode`/`subject` column defaults of the DDL (`'both'`, NULL). -/

/-- Sample question 1 (Saturn, 5 marks, answer B). -/
def sampleQ1 : QuestionRow :=
  ⟨"q1", "Which planet in our solar system has the most extensive ring system?",
   "Jupiter", "Saturn", "Uranus", "Neptune", "B", 60, 5, 1, "both", none⟩

/-- Sample question 2 (Proxima Centauri, 3 marks, answer A). -/
def sampleQ2 : QuestionRow :=
  ⟨"q2", "What is the closest star to Earth after the Sun?",
   "Proxima Centauri", "Alpha Centauri A", "Sirius", "Betelgeuse", "A", 45, 3, 2, "both", none⟩

/-- A solo participant with the passcode "AAAAAA". -/
def demoSolo : Participant :=
  ⟨"p1", "Ava", "ava@example.com", "0700000000", none, "AAAAAA", "solo",
   none, none, false, false, 0⟩

/-- A participant who has already completed the quiz. -/
def demoCompleted : Participant :=
  ⟨"p2", "Ben", "ben@example.com", "0711111111", none, "BBBBBB", "solo",
   none, none, false, true, 0⟩

/-- A submission already recorded for `demoCompleted`. -/
def demoSubmission : QuizSubmission :=
  ⟨"s0", "p2", [("q1", "B")], 5, 8, 40, 50⟩

/-- Store holding the sample questions, one fresh and one completed
participant, and the completed participant's earlier submission. -/
def demoStore : Store :=
  ⟨[demoSolo, demoCompleted], [], [sampleQ1, sampleQ2], [demoSubmission]⟩

/-- The all-open settings row. -/
def openSettings : SystemSettings := ⟨true, true, true⟩

/-- An empty store. -/
def emptyStore : Store := ⟨[], [], [], []⟩

/-- Concrete stand-ins for the platform primitives of the token layer,
used to evaluate the embedded code at concrete inputs. `encDemo`/`decDemo`
model the base64url-JSON codec on the one body the demonstrations use, and
`hmacDemo` models HMAC-SHA256 rendered as base64url: deterministic,
dot-free, and always 43 characters long (32 bytes base64url-encoded). -/
def demoBody : TokenBody := ⟨[("role", "admin")], some 1000⟩

/-- Demo encoder: see `demoBody`. -/
def encDemo (b : TokenBody) : Str :=
  if b = demoBody then "ENCODEDBODY".toList else "OTHERBODY".toList

/-- Demo decoder, partial inverse of `encDemo`. -/
def decDemo (s : Str) : Option TokenBody :=
  if s = "ENCODEDBODY".toList then some demoBody else none

/-- Demo HMAC: 42 fixed characters plus one input-dependent letter,
43 characters in total, never containing a dot. -/
def hmacDemo (s : Str) : Str :=
  List.replicate 42 'h' ++
    [Char.ofNat (65 + (s.foldl (fun a c => (a + c.toNat) % 26) 0))]

/-- Holds when a school-registration outcome is the zod 400 and its issue
list names the given rule. -/
def isZod400With (r : SchoolRegResult) (iss : ZodIssue) : Prop :=
  match r with
  | .zod400 issues => iss ∈ issues
  | _ => False

/-- Insert data used by the passcode witness. -/
def c8data : InsertParticipant :=
  ⟨"Demo", "demo@example.com", "0712345678", none, "solo", none, none, false⟩

/-- The participant the witness creation produces (constant rng 0 picks
the character A six times). -/
def c8p : Participant :=
  ⟨"pW", "Demo", "demo@example.com", "0712345678", none, "AAAAAA", "solo",
   none, none, false, false, 0⟩

/-- A school-registration request body with five valid members, the five
distinct subjects, and exactly one leader. -/
def c3body : SchoolRegBody :=
  ⟨some "Lincoln High", some
    [⟨some "A1", some "a1@school.org", some "0701", none, some "Astrophysics", some true⟩,
     ⟨some "B2", some "b2@school.org", some "0702", none, some "Observational Astronomy", some false⟩,
     ⟨some "C3", some "c3@school.org", some "0703", none, some "Rocketry", some false⟩,
     ⟨some "D4", some "d4@school.org", some "0704", none, some "Cosmology", some false⟩,
     ⟨some "E5", some "e5@school.org", some "0705", none, some "General Astronomy", some false⟩]⟩

/-- The school row the witness registration creates. -/
def c3school : School := ⟨"sch1", "Lincoln High", 0⟩

/-- Builder for the expected member rows of the witness registration. -/
def c3p (pid nm em ph pc subj : String) (lead : Bool) : Participant :=
  ⟨pid, nm, em, ph, none, pc, "school", some "sch1", some subj, lead, false, 0⟩

/-- The store after the witness registration: with `rng n = n` the five
generated passcodes are consecutive slices of the alphabet, each later
member retrying past the codes already taken. -/
def c3resultStore : Store :=
  ⟨[c3p "m1" "A1" "a1@school.org" "0701" "ABCDEF" "Astrophysics" true,
    c3p "m2" "B2" "b2@school.org" "0702" "GHIJKL" "Observational Astronomy" false,
    c3p "m3" "C3" "c3@school.org" "0703" "MNOPQR" "Rocketry" false,
    c3p "m4" "D4" "d4@school.org" "0704" "STUVWX" "Cosmology" false,
    c3p "m5" "E5" "e5@school.org" "0705" "YZ0123" "General Astronomy" false],
   [c3school], [], []⟩

/-- The response views of the witness registration. -/
def c3views : List (String × String × Option String) :=
  [("A1", "ABCDEF", some "Astrophysics"),
   ("B2", "GHIJKL", some "Observational Astronomy"),
   ("C3", "MNOPQR", some "Rocketry"),
   ("D4", "STUVWX", some "Cosmology"),
   ("E5", "YZ0123", some "General Astronomy")]

/-! ## Theorems: admin token (claims C9, C10) -/

/-- A dot-free string splits into itself alone. -/
theorem splitOnDot_no_dot (s : Str) (h : '.' ∉ s) : splitOnDot s = [s] := by
  induction s with
  | nil => rfl
  | cons c rest ih =>
    have hc : c ≠ '.' := fun hcc => h (hcc ▸ List.mem_cons_self c rest)
    have hr : '.' ∉ rest := fun hm => h (List.mem_cons_of_mem c hm)
    simp [splitOnDot, ih hr, hc]

/-- Splitting a token of the shape `encoded ++ "." ++ sig` where neither
part contains a dot yields exactly those two parts. -/
theorem splitOnDot_append (a b : Str) (ha : '.' ∉ a) (hb : '.' ∉ b) :
    splitOnDot (a ++ '.' :: b) = [a, b] := by
  induction a with
  | nil => simp [splitOnDot, splitOnDot_no_dot b hb]
  | cons c rest ih =>
    have hc : c ≠ '.' := fun hcc => ha (hcc ▸ List.mem_cons_self c rest)
    have hr : '.' ∉ rest := fun hm => ha (List.mem_cons_of_mem c hm)
    simp [splitOnDot, ih hr, hc]

/-- Evaluation of `verifyAdminToken` on a well-shaped two-part token. -/
theorem verify_eval (dec : Str → Option TokenBody) (hmac : Str → Str)
    (now2 : Int) (E S : Str) (hE : E ≠ []) (hS : S ≠ [])
    (hEd : '.' ∉ E) (hSd : '.' ∉ S) :
    verifyAdminToken dec hmac now2 (some (E ++ '.' :: S)) =
      (if byteLen S ≠ byteLen (hmac E) then .threw
       else if S ≠ hmac E then .nullRes
       else
         match dec E with
         | none => .nullRes
         | some body =>
           match body.exp with
           | none => .nullRes
           | some e => if now2 > e then .nullRes else .payload body) := by
  have hne : E ++ '.' :: S ≠ [] := by simp
  simp only [verifyAdminToken, if_neg hne, splitOnDot_append E S hEd hSd,
    List.getD_cons_zero, List.getD_cons_succ]
  rw [if_neg (by simp [hE, hS])]

/-- C9 (amended): a token issued by `signAdminToken` verifies to the
payload extended with `exp` while `now2` has not passed `exp`, and to null
once it has; replacing the signature by any other string of the same byte
length yields null, and replacing the encoded part by any other dot-free
string whose HMAC differs (no collision) while keeping the HMAC output
length also yields null.  Alterations that change the dot structure so
that the signature part's byte length differs from the HMAC output length
do not return null — they throw (see the counterexample).  `enc`, `dec`
and `hmac` are the platform codec and HMAC primitives; the hypotheses
record their contract: the codec round-trips on the issued body, and
base64url output is nonempty and dot-free. -/
theorem claim_C9_token_roundtrip
    (enc : TokenBody → Str) (dec : Str → Option TokenBody) (hmac : Str → Str)
    (now ttl now2 : Int) (p : List (String × String))
    (hdec : dec (enc ⟨p, some (now + ttl)⟩) = some ⟨p, some (now + ttl)⟩)
    (hencNe : enc ⟨p, some (now + ttl)⟩ ≠ [])
    (hencDot : '.' ∉ enc ⟨p, some (now + ttl)⟩)
    (hsigNe : hmac (enc ⟨p, some (now + ttl)⟩) ≠ [])
    (hsigDot : '.' ∉ hmac (enc ⟨p, some (now + ttl)⟩)) :
    (now2 ≤ now + ttl →
      verifyAdminToken dec hmac now2 (some (signAdminToken enc hmac now ttl p)) =
        .payload ⟨p, some (now + ttl)⟩) ∧
    (now + ttl < now2 →
      verifyAdminToken dec hmac now2 (some (signAdminToken enc hmac now ttl p)) =
        .nullRes) ∧
    (∀ sig2 : Str, sig2 ≠ hmac (enc ⟨p, some (now + ttl)⟩) →
      byteLen sig2 = byteLen (hmac (enc ⟨p, some (now + ttl)⟩)) →
      sig2 ≠ [] → '.' ∉ sig2 →
      verifyAdminToken dec hmac now2
        (some (enc ⟨p, some (now + ttl)⟩ ++ '.' :: sig2)) = .nullRes) ∧
    (∀ enc2 : Str, enc2 ≠ [] → '.' ∉ enc2 →
      hmac enc2 ≠ hmac (enc ⟨p, some (now + ttl)⟩) →
      byteLen (hmac enc2) = byteLen (hmac (enc ⟨p, some (now + ttl)⟩)) →
      verifyAdminToken dec hmac now2
        (some (enc2 ++ '.' :: hmac (enc ⟨p, some (now + ttl)⟩))) = .nullRes) := by
  refine ⟨?_, ?_, ?_, ?_⟩
  · intro hfresh
    rw [signAdminToken, verify_eval dec hmac now2 _ _ hencNe hsigNe hencDot hsigDot]
    simp [hdec, not_lt.mpr hfresh]
  · intro hexp
    rw [signAdminToken, verify_eval dec hmac now2 _ _ hencNe hsigNe hencDot hsigDot]
    simp [hdec, hexp]
  · intro sig2 hne hlen hne2 hnd
    rw [verify_eval dec hmac now2 _ _ hencNe hne2 hencDot hnd]
    simp [hlen, hne]
  · intro enc2 hne hnd hcoll hlen
    have hcoll2 : hmac (enc ⟨p, some (now + ttl)⟩) ≠ hmac enc2 :=
      fun h => hcoll h.symm
    rw [verify_eval dec hmac now2 _ _ hne hsigNe hnd hsigDot]
    simp [hlen, hcoll2]

/-- C9 witness: with the demo codec and HMAC, a token issued at time 0
with ttl 1000 verifies at time 500 to the role payload plus `exp`. -/
theorem claim_C9_witness :
    verifyAdminToken decDemo hmacDemo 500
      (some (signAdminToken encDemo hmacDemo 0 1000 [("role", "admin")])) =
      .payload ⟨[("role", "admin")], some (0 + 1000)⟩ :=
  (claim_C9_token_roundtrip encDemo decDemo hmacDemo 0 1000 500 [("role", "admin")]
    (by decide) (by decide) (by decide) (by decide) (by decide)).1 (by norm_num)

/-- C9 counterexample: the claim says a token with any altered byte
verifies to null, but altering byte 4 of this issued token to a dot makes
the signature part 6 bytes long, `crypto.timingSafeEqual` throws, and
verification at time 500 (before expiry) raises instead of returning
null. -/
theorem claim_C9_counterexample :
    verifyAdminToken decDemo hmacDemo 500
      (some ((signAdminToken encDemo hmacDemo 0 1000 [("role", "admin")]).set 4 '.')) =
      .threw ∧ VerifyResult.threw ≠ VerifyResult.nullRes := by
  constructor
  · decide
  · decide

/-- C10: the claim says `verifyAdminToken` is total and rejects a
signature part whose length differs from the HMAC output by returning
null; but for the token "A.B" (signature one byte, HMAC output 43 bytes)
the `crypto.timingSafeEqual` call at src/server/routes.ts:27 sits outside
the try block and throws, so verification raises instead of returning
null. -/
theorem claim_C10_wrong_length_sig_throws :
    verifyAdminToken decDemo hmacDemo 0 (some ['A', '.', 'B']) = .threw ∧
    VerifyResult.threw ≠ VerifyResult.nullRes := by
  constructor
  · decide
  · decide

/-! ## Theorems: quiz submission (claims C1, C2) -/

/-- C1: the claim says the server itself computes the persisted `score`
and `totalMarks` from the answers and the eligible questions, independent
of client-supplied values.  Evaluating the embedded handler shows the
opposite: the body the repository's own quiz page sends (participantId,
answers, timeTaken — no score) is rejected with the zod 400 because
`insertQuizSubmissionSchema` requires `score` and `totalMarks` from the
client; and when the client does supply `score = 999`, `totalMarks = 777`,
those values are persisted verbatim even though every submitted answer is
wrong — the spec-side scoring of the same answers gives 0 of 8. -/
theorem claim_C1_client_score_persisted :
    postQuizSubmissions 100 "s1" demoStore
      ⟨some "p1", some [("q1", "D")], none, none, some 30⟩ = (.zod400, demoStore) ∧
    postQuizSubmissions 100 "s1" demoStore
      ⟨some "p1", some [("q1", "D")], some 999, some 777, some 30⟩ =
      (.ok ⟨"s1", "p1", [("q1", "D")], 999, 777, 30, 100⟩,
       { demoStore with
          participants := [{ demoSolo with hasCompletedQuiz := true }, demoCompleted],
          submissions := demoStore.submissions ++
            [⟨"s1", "p1", [("q1", "D")], 999, 777, 30, 100⟩] }) ∧
    specScore [("q1", "D")] demoStore.questions = 0 ∧
    specTotalMarks demoStore.questions = 8 := by
  refine ⟨by decide, by decide, by decide, by decide⟩

/-- C2: the claim says a participant with `hasCompletedQuiz = true` posting
to `/api/quiz-submissions` gets a 403 and no new row.  Evaluating the
embedded handler on the already-completed participant `p2` shows the
submission is accepted (the handler never reads the participant) and a
second QuizSubmission row for `p2` is stored. -/
theorem claim_C2_second_submission_accepted :
    demoCompleted.hasCompletedQuiz = true ∧
    (postQuizSubmissions 200 "s2" demoStore
      ⟨some "p2", some [("q1", "B")], some 5, some 8, some 60⟩).1 =
      .ok ⟨"s2", "p2", [("q1", "B")], 5, 8, 60, 200⟩ ∧
    ((postQuizSubmissions 200 "s2" demoStore
      ⟨some "p2", some [("q1", "B")], some 5, some 8, some 60⟩).2.submissions.filter
        (fun s => s.participantId == "p2")).length = 2 := by
  refine ⟨rfl, by decide, by decide⟩

/-! ## Theorems: questions route (claims C5, C6) -/

/-- C5 counterexample: for the solo participant and the repository's own
sample questions (whose stored `mode` column defaults to `'both'`), the
served set is not the eligible set — the handler serves both questions
while the spec-side filter selects none of them. -/
theorem claim_C5_counterexample :
    getAllQuestions demoStore ≠
      (specEligibleQuestions demoSolo demoStore.questions).map selectQuestion := by
  decide

/-- C5 (amended): `GET /api/questions` serves every stored question —
the served list is a permutation of all rows under the schema projection,
ordered by `orderIndex` ascending — with no filtering by participant mode
or subject (the handler at src/server/routes.ts:152 ignores the request,
and the projected rows carry no mode/subject at all). -/
theorem claim_C5_all_questions_served (store : Store) :
    (getAllQuestions store).Perm (store.questions.map selectQuestion) ∧
    List.Sorted questionLE (getAllQuestions store) :=
  ⟨List.perm_insertionSort questionLE (store.questions.map selectQuestion),
   List.sorted_insertionSort questionLE (store.questions.map selectQuestion)⟩

/-- C6 counterexample: the claim says no served question object contains
the `correctAnswer` field, but on the sample store every served object
does. -/
theorem claim_C6_counterexample :
    ¬ (∀ o ∈ getQuestionsResponse demoStore, ∀ kv ∈ o, kv.1 ≠ "correctAnswer") := by
  decide

/-- C6 (amended): every question object served by `GET /api/questions`
contains the `correctAnswer` key — the handler serializes the full
drizzle rows and applies no redaction. -/
theorem claim_C6_correct_answer_served (store : Store)
    (o : List (String × JVal)) (ho : o ∈ getQuestionsResponse store) :
    "correctAnswer" ∈ o.map Prod.fst := by
  obtain ⟨q, _, rfl⟩ := List.mem_map.mp ho
  simp [questionToJson]

/-- C6 witness: the amended theorem applied to the sample store and the
first served object. -/
theorem claim_C6_witness :
    "correctAnswer" ∈ (questionToJson (selectQuestion sampleQ1)).map Prod.fst :=
  claim_C6_correct_answer_served demoStore (questionToJson (selectQuestion sampleQ1))
    (by decide)

/-! ## Helper lemmas about passcode generation and participant creation -/

/-- A generated passcode always has six characters. -/
theorem generatePasscode_length (rng : Nat → Nat) (k : Nat) :
    (generatePasscode rng k).length = 6 := by
  simp [generatePasscode, String.length]

/-- Every character of a generated passcode is drawn from the alphabet. -/
theorem generatePasscode_chars (rng : Nat → Nat) (k : Nat) :
    ∀ c ∈ (generatePasscode rng k).data, c ∈ passcodeChars := by
  intro c hc
  simp only [generatePasscode, String.data] at hc
  obtain ⟨i, _, rfl⟩ := List.mem_map.mp hc
  have hlen : passcodeChars.length = 36 := by decide
  have h36 : rng (k + i) % 36 < passcodeChars.length := by
    rw [hlen]; exact Nat.mod_lt _ (by norm_num)
  rw [List.getD_eq_getElem _ _ h36]
  exact List.getElem_mem h36

/-- A `none` lookup means no participant holds the passcode. -/
theorem getByPasscode_none (store : Store) (pc : String)
    (h : getParticipantByPasscode store pc = none) :
    ∀ q ∈ store.participants, q.passcode ≠ pc := by
  intro q hq
  have := List.find?_eq_none.mp h q hq
  simpa using this

/-- What a successful `createParticipant` produces: a row built from the
insert data, carrying a generated passcode that no existing participant
holds, appended to the participant list; no other table is touched. -/
theorem createParticipant_some (rng : Nat → Nat) (newId : String) (now : Nat)
    (data : InsertParticipant) (fuel : Nat) :
    ∀ (k : Nat) (store store' : Store) (p : Participant),
      createParticipant rng newId now data fuel k store = some (p, store') →
      (∃ kk, p.passcode = generatePasscode rng kk) ∧
      getParticipantByPasscode store p.passcode = none ∧
      store' = { store with participants := store.participants ++ [p] } ∧
      p = { id := newId, name := data.name, email := data.email,
            phone := data.phone, institution := data.institution,
            passcode := p.passcode, mode := data.mode, schoolId := data.schoolId,
            subject := data.subject, isLeader := data.isLeader,
            hasCompletedQuiz := false, registeredAt := now } := by
  induction fuel with
  | zero => intro k store store' p h; simp [createParticipant] at h
  | succ n ih =>
    intro k store store' p h
    rw [createParticipant] at h
    cases hf : getParticipantByPasscode store (generatePasscode rng k) with
    | some q =>
      rw [hf] at h
      exact ih (k + 6) store store' p h
    | none =>
      rw [hf] at h
      simp only [Option.some.injEq, Prod.mk.injEq] at h
      obtain ⟨hp, hs⟩ := h
      subst hs
      refine ⟨⟨k, by rw [← hp]⟩, by rw [← hp]; exact hf, ?_, ?_⟩
      · rw [← hp]
      · rw [← hp]

/-! ## Theorems: passcodes (claim C8) -/

/-- C8: every passcode assigned by `createParticipant` is a 6-character
string over A-Z0-9; it differs from the passcode of every participant
already in the store (the do/while loop regenerates until the lookup
misses), so pairwise distinctness of passcodes is preserved by every
creation; and the one participant mutation the routes ever perform — the
`hasCompletedQuiz` flip of the quiz-submission route — leaves every
participant's passcode (and id) unchanged. -/
theorem claim_C8_passcode_invariants
    (rng : Nat → Nat) (newId : String) (now : Nat) (data : InsertParticipant)
    (fuel k : Nat) (store store' : Store) (p : Participant)
    (h : createParticipant rng newId now data fuel k store = some (p, store'))
    (store2 : Store) (pid : String) :
    p.passcode.length = 6 ∧
    (∀ c ∈ p.passcode.data, c ∈ passcodeChars) ∧
    (∀ q ∈ store.participants, q.passcode ≠ p.passcode) ∧
    store'.participants = store.participants ++ [p] ∧
    ((store.participants.map (fun q => q.passcode)).Nodup →
      (store'.participants.map (fun q => q.passcode)).Nodup) ∧
    (updateParticipant store2 pid completedUpdate).participants.map
        (fun q => (q.id, q.passcode)) =
      store2.participants.map (fun q => (q.id, q.passcode)) := by
  obtain ⟨⟨kk, hpc⟩, hfresh, hstore, -⟩ :=
    createParticipant_some rng newId now data fuel k store store' p h
  have hdistinct : ∀ q ∈ store.participants, q.passcode ≠ p.passcode :=
    getByPasscode_none store p.passcode hfresh
  refine ⟨by rw [hpc]; exact generatePasscode_length rng kk,
          by rw [hpc]; exact generatePasscode_chars rng kk,
          hdistinct, by rw [hstore], ?_, ?_⟩
  · intro hnd
    rw [hstore]
    simp only [List.map_append, List.map_cons, List.map_nil]
    refine List.Nodup.append hnd (List.nodup_singleton _) ?_
    intro x hx hx2
    obtain ⟨q, hq, rfl⟩ := List.mem_map.mp hx
    simp only [List.mem_singleton] at hx2
    exact hdistinct q hq hx2
  · rw [updateParticipant, List.map_map]
    apply List.map_congr_left
    intro q _
    by_cases hid : q.id = pid <;>
      simp [hid, applyUpdate, completedUpdate]

/-- C8 witness: creating a participant in the empty store with constant
rng 0 yields the passcode "AAAAAA" — six characters, appended to the
store. -/
theorem claim_C8_witness :
    c8p.passcode.length = 6 ∧
    (Store.mk [c8p] [] [] []).participants = emptyStore.participants ++ [c8p] :=
  have h := claim_C8_passcode_invariants (fun _ => 0) "pW" 0 c8data 1 0
    emptyStore (Store.mk [c8p] [] [] []) c8p (by decide) emptyStore "x"
  ⟨h.1, h.2.2.2.1⟩

/-! ## Theorems: solo registration (claim C7) -/

/-- C7 counterexample: the claim says a name-only request is accepted when
solo registration is open, but the handler rejects it with 400 — the
inline schema requires `email` and `phone` — and creates nothing. -/
theorem claim_C7_counterexample :
    postParticipants (fun _ => true) (fun _ => 0) 1 "p9" 0 openSettings emptyStore
      ⟨some "Ava", none, none, none⟩ = (.invalid400, emptyStore) := by
  decide

/-- C7 (amended): a solo-registration request must carry a name, an email
accepted by the zod email format, and a phone; a request missing email or
phone is rejected with 400 and no participant is created, while a request
with all three (and the gate open) creates a participant with
`mode = solo` and a 6-character passcode. -/
theorem claim_C7_contact_fields_required
    (emailOk : String → Bool) (rng : Nat → Nat) (fuel : Nat) (newId : String)
    (now : Nat) (settings : SystemSettings) (store : Store) (body : SoloBody)
    (hopen : settings.soloRegistrationOpen = true) :
    (body.email = none ∨ body.phone = none →
      postParticipants emailOk rng fuel newId now settings store body =
        (.invalid400, store)) ∧
    (∀ nm em ph p store2,
      body.name = some nm → body.email = some em → body.phone = some ph →
      1 ≤ nm.length → emailOk em = true → 1 ≤ ph.length →
      createParticipant rng newId now
          ⟨nm, em, ph, body.institution, "solo", none, none, false⟩ fuel 0 store =
        some (p, store2) →
      postParticipants emailOk rng fuel newId now settings store body =
        (.ok [p], store2) ∧
      p.mode = "solo" ∧ p.passcode.length = 6 ∧
      store2.participants = store.participants ++ [p]) := by
  constructor
  · intro hmiss
    rw [postParticipants, if_neg (by simp [hopen])]
    rcases hmiss with he | hp
    · rw [he]; cases body.name <;> cases body.phone <;> rfl
    · rw [hp]; cases body.name <;> cases body.email <;> rfl
  · intro nm em ph p store2 hnm hem hph hnml hok hphl hcreate
    obtain ⟨⟨kk, hpc⟩, -, hstore, hp⟩ :=
      createParticipant_some rng newId now _ fuel 0 store store2 p hcreate
    refine ⟨?_, ?_, ?_, by rw [hstore]⟩
    · simp [postParticipants, hopen, hnm, hem, hph, hnml, hok, hphl, hcreate]
    · rw [hp]
    · rw [hpc]; exact generatePasscode_length rng kk

/-- C7 witness: with every field present the handler registers the
participant and returns it. -/
theorem claim_C7_witness :
    postParticipants (fun _ => true) (fun _ => 0) 1 "pW" 0 openSettings emptyStore
      ⟨some "Demo", some "demo@example.com", some "0712345678", none⟩ =
      (.ok [c8p], Store.mk [c8p] [] [] []) :=
  ((claim_C7_contact_fields_required (fun _ => true) (fun _ => 0) 1 "pW" 0
      openSettings emptyStore
      ⟨some "Demo", some "demo@example.com", some "0712345678", none⟩ rfl).2
    "Demo" "demo@example.com" "0712345678" c8p (Store.mk [c8p] [] [] [])
    rfl rfl rfl (by decide) rfl (by decide) (by decide)).1

/-! ## Helper lemmas about school registration -/

/-- A successful parse implies the body held exactly five member
objects, and the parsed members are their field readings. -/
theorem parseSchoolBody_ok (emailOk : String → Bool) (body : SchoolRegBody)
    (nm : String) (mems : List MemberData)
    (h : parseSchoolBody emailOk body = .ok (nm, mems)) :
    ∃ ms, body.members = some ms ∧ mems = ms.map forceMember ∧ ms.length = 5 := by
  obtain ⟨bsn, bms⟩ := body
  cases bsn with
  | none => cases bms <;> exact absurd h (by simp [parseSchoolBody])
  | some nm2 =>
    cases bms with
    | none => exact absurd h (by simp [parseSchoolBody])
    | some ms =>
      simp only [parseSchoolBody] at h
      refine ⟨ms, rfl, ?_⟩
      by_cases hnm : 1 ≤ nm2.length
      · rw [if_pos hnm] at h
        simp only [List.nil_append] at h
        by_cases hB : memberListIssues emailOk ms = []
        · rw [if_pos hB] at h
          have hpair := Except.ok.inj h
          refine ⟨(Prod.ext_iff.mp hpair).2.symm, ?_⟩
          rw [memberListIssues] at hB
          have hB1 := (List.append_eq_nil.mp hB).1
          by_cases hlen : ms.length = 5
          · exact hlen
          · simp [hlen] at hB1
        · rw [if_neg hB] at h
          exact absurd h (by simp)
      · rw [if_neg hnm] at h
        exact absurd h (by simp)

/-- When the members array does not have exactly five entries, the parse
fails and the issue list names the length rule. -/
theorem parseSchoolBody_wrongCount (emailOk : String → Bool) (body : SchoolRegBody)
    (ms : List RawMember) (hm : body.members = some ms) (hlen : ms.length ≠ 5) :
    ∃ issues, parseSchoolBody emailOk body = .error issues ∧
      ZodIssue.wrongMemberCount ∈ issues := by
  obtain ⟨bsn, bms⟩ := body
  simp only at hm
  subst hm
  have hmm : ZodIssue.wrongMemberCount ∈ memberListIssues emailOk ms := by
    simp [memberListIssues, hlen]
  cases bsn with
  | none => exact ⟨_, rfl, List.mem_append_right _ hmm⟩
  | some nm =>
    have hne : ((if 1 ≤ nm.length then ([] : List ZodIssue) else [ZodIssue.schoolNameEmpty]) ++
        memberListIssues emailOk ms) ≠ [] :=
      List.ne_nil_of_mem (List.mem_append_right _ hmm)
    refine ⟨(if 1 ≤ nm.length then ([] : List ZodIssue) else [ZodIssue.schoolNameEmpty]) ++
        memberListIssues emailOk ms, ?_, List.mem_append_right _ hmm⟩
    simp only [parseSchoolBody, if_neg hne]

/-- When some member's subject lies outside the five fixed values, the
parse fails and the issue list names the subject rule for that member. -/
theorem parseSchoolBody_badSubject (emailOk : String → Bool) (body : SchoolRegBody)
    (ms : List RawMember) (i : Nat) (m : RawMember) (s : String)
    (hm : body.members = some ms) (hi : ms[i]? = some m)
    (hs : m.subject = some s) (hbad : s ∉ SUBJECTS) :
    ∃ issues, parseSchoolBody emailOk body = .error issues ∧
      ZodIssue.invalidSubject i ∈ issues := by
  obtain ⟨bsn, bms⟩ := body
  simp only at hm
  subst hm
  have hmm : ZodIssue.invalidSubject i ∈ memberListIssues emailOk ms := by
    rw [memberListIssues]
    apply List.mem_append_right
    apply List.mem_flatten.mpr
    refine ⟨memberIssues emailOk i m,
      List.mem_map.mpr ⟨(i, m), List.mk_mem_enum_iff_getElem?.mpr hi, rfl⟩, ?_⟩
    simp [memberIssues, hs, hbad]
  cases bsn with
  | none => exact ⟨_, rfl, List.mem_append_right _ hmm⟩
  | some nm =>
    have hne : ((if 1 ≤ nm.length then ([] : List ZodIssue) else [ZodIssue.schoolNameEmpty]) ++
        memberListIssues emailOk ms) ≠ [] :=
      List.ne_nil_of_mem (List.mem_append_right _ hmm)
    refine ⟨(if 1 ≤ nm.length then ([] : List ZodIssue) else [ZodIssue.schoolNameEmpty]) ++
        memberListIssues emailOk ms, ?_, List.mem_append_right _ hmm⟩
    simp only [parseSchoolBody, if_neg hne]

/-- What a successful `insertMembers` produces: one participant row per
member, appended in order; no other table is touched. -/
theorem insertMembers_some (rng : Nat → Nat) (fuel : Nat) (now : Nat) (schoolId : String) :
    ∀ (ms : List MemberData) (mids : List String) (s s' : Store) (ps : List Participant),
      insertMembers rng fuel now schoolId ms mids s = some (ps, s') →
      s'.participants = s.participants ++ ps ∧ ps.length = ms.length ∧
      s'.schools = s.schools ∧ s'.questions = s.questions ∧
      s'.submissions = s.submissions := by
  intro ms
  induction ms with
  | nil =>
    intro mids s s' ps h
    simp only [insertMembers, Option.some.injEq, Prod.mk.injEq] at h
    obtain ⟨h1, h2⟩ := h
    subst h2
    simp [← h1]
  | cons m rest ih =>
    intro mids s s' ps h
    cases mids with
    | nil => simp [insertMembers] at h
    | cons mid mids2 =>
      rw [insertMembers] at h
      split at h
      · exact absurd h (by simp)
      case h_2 p1 s1 hc =>
        split at h
        · exact absurd h (by simp)
        case h_2 ps2 s2 hi =>
          simp only [Option.some.injEq, Prod.mk.injEq] at h
          obtain ⟨hps, hs2⟩ := h
          obtain ⟨-, -, hstore1, -⟩ :=
            createParticipant_some rng mid now _ fuel 0 s s1 p1 hc
          obtain ⟨hpart, hlen, hsch, hq, hsub⟩ := ih mids2 s1 s2 ps2 hi
          rw [← hs2, ← hps]
          rw [hstore1] at hpart hsch hq hsub
          refine ⟨?_, ?_, by simpa using hsch, by simpa using hq,
            by simpa using hsub⟩
          · rw [hpart]
            simp
          · simp [hlen]

/-- What a successful `registerSchoolWithMembers` produces: the school
row appended, one participant per member appended, other tables
untouched. -/
theorem registerSchoolWithMembers_some (rng : Nat → Nat) (fuel : Nat)
    (ids : List String) (now : Nat) (store : Store) (schoolName : String)
    (members : List MemberData) (school : School) (ps : List Participant)
    (store' : Store)
    (h : registerSchoolWithMembers rng fuel ids now store schoolName members =
      some (school, ps, store')) :
    store'.schools = store.schools ++ [school] ∧
    store'.participants = store.participants ++ ps ∧
    ps.length = members.length ∧
    store'.questions = store.questions ∧
    store'.submissions = store.submissions := by
  cases ids with
  | nil => simp [registerSchoolWithMembers] at h
  | cons sid mids =>
    rw [registerSchoolWithMembers] at h
    split at h
    · exact absurd h (by simp)
    case h_2 ps2 s2 hi =>
      simp only [Option.some.injEq, Prod.mk.injEq] at h
      obtain ⟨hsch, hps, hs2⟩ := h
      obtain ⟨hpart, hlen, hschools, hq, hsub⟩ :=
        insertMembers_some rng fuel now sid members mids _ s2 ps2 hi
      rw [← hs2, ← hps, ← hsch]
      exact ⟨by simpa using hschools, by simpa using hpart, hlen,
        by simpa using hq, by simpa using hsub⟩

/-! ## Theorems: school registration (claims C3, C4) -/

/-- C4: with the feature gate open, each of the four stated violations —
not exactly five members, a subject outside the five fixed values, a
leader count different from one, or subjects that are not pairwise
distinct — makes the handler answer with a 400 naming the violated rule
(the zod issue list, the leader message, or the distinct-subject message)
and leaves the store untouched: the storage call is only reached after
all four checks pass. -/
theorem claim_C4_school_validation
    (emailOk : String → Bool) (rng : Nat → Nat) (fuel : Nat) (ids : List String)
    (now : Nat) (settings : SystemSettings) (store : Store) (body : SchoolRegBody)
    (hopen : settings.schoolRegistrationOpen = true) :
    (∀ ms, body.members = some ms → ms.length ≠ 5 →
      isZod400With (postSchoolsRegister emailOk rng fuel ids now settings store body).1
        .wrongMemberCount ∧
      (postSchoolsRegister emailOk rng fuel ids now settings store body).2 = store) ∧
    (∀ ms i m s, body.members = some ms → ms[i]? = some m → m.subject = some s →
      s ∉ SUBJECTS →
      isZod400With (postSchoolsRegister emailOk rng fuel ids now settings store body).1
        (.invalidSubject i) ∧
      (postSchoolsRegister emailOk rng fuel ids now settings store body).2 = store) ∧
    (∀ nm mems, parseSchoolBody emailOk body = .ok (nm, mems) →
      (mems.filter (fun m => m.isLeader)).length ≠ 1 →
      postSchoolsRegister emailOk rng fuel ids now settings store body =
        (.leader400, store)) ∧
    (∀ nm mems, parseSchoolBody emailOk body = .ok (nm, mems) →
      (mems.filter (fun m => m.isLeader)).length = 1 →
      (mems.map (fun m => m.subject)).dedup.length ≠ 5 →
      postSchoolsRegister emailOk rng fuel ids now settings store body =
        (.subject400, store)) := by
  refine ⟨?_, ?_, ?_, ?_⟩
  · intro ms hm hlen
    obtain ⟨issues, hparse, hmem⟩ :=
      parseSchoolBody_wrongCount emailOk body ms hm hlen
    have hres : postSchoolsRegister emailOk rng fuel ids now settings store body =
        (.zod400 issues, store) := by
      rw [postSchoolsRegister, if_neg (by simp [hopen]), hparse]
    rw [hres]
    exact ⟨hmem, rfl⟩
  · intro ms i m s hm hi hs hbad
    obtain ⟨issues, hparse, hmem⟩ :=
      parseSchoolBody_badSubject emailOk body ms i m s hm hi hs hbad
    have hres : postSchoolsRegister emailOk rng fuel ids now settings store body =
        (.zod400 issues, store) := by
      rw [postSchoolsRegister, if_neg (by simp [hopen]), hparse]
    rw [hres]
    exact ⟨hmem, rfl⟩
  · intro nm mems hparse hlead
    rw [postSchoolsRegister, if_neg (by simp [hopen]), hparse]
    simp [hlead]
  · intro nm mems hparse hlead hsubj
    rw [postSchoolsRegister, if_neg (by simp [hopen]), hparse]
    simp [hlead, hsubj]

/-- C4 witness: an empty member list (zero members, gate open) is rejected
with the zod 400 naming the member-count rule and no row is written. -/
theorem claim_C4_witness :
    isZod400With (postSchoolsRegister (fun _ => true) (fun n => n) 1 ["s"] 0
      openSettings emptyStore ⟨some "X", some []⟩).1 .wrongMemberCount ∧
    (postSchoolsRegister (fun _ => true) (fun n => n) 1 ["s"] 0
      openSettings emptyStore ⟨some "X", some []⟩).2 = emptyStore :=
  (claim_C4_school_validation (fun _ => true) (fun n => n) 1 ["s"] 0
    openSettings emptyStore ⟨some "X", some []⟩ rfl).1 [] rfl (by decide)

/-- C3: every successful `POST /api/schools/register` appends exactly one
school row and exactly five participant rows (the parse guarantees five
members) and touches no other table; every unsuccessful outcome — gate
closed, validation failure, or a storage failure inside the modelled
transaction — leaves the store exactly as it was, which is the rollback
guarantee.  The storage half rests on `registerSchoolWithMembers` being
modelled from the spec, since its implementation is absent from src/. -/
theorem claim_C3_school_registration_atomic
    (emailOk : String → Bool) (rng : Nat → Nat) (fuel : Nat) (ids : List String)
    (now : Nat) (settings : SystemSettings) (store : Store) (body : SchoolRegBody) :
    (∀ school views store2,
      postSchoolsRegister emailOk rng fuel ids now settings store body =
        (.ok school views, store2) →
      store2.schools = store.schools ++ [school] ∧
      store2.participants.length = store.participants.length + 5 ∧
      store2.questions = store.questions ∧
      store2.submissions = store.submissions) ∧
    (∀ res store2,
      postSchoolsRegister emailOk rng fuel ids now settings store body = (res, store2) →
      (∀ school views, res ≠ .ok school views) → store2 = store) := by
  constructor
  · intro school views store2 h
    rw [postSchoolsRegister] at h
    split at h
    · exact absurd h (by simp)
    · split at h
      case h_1 issues heq => exact absurd h (by simp)
      case h_2 nm mems heq =>
        split at h
        case isTrue => exact absurd h (by simp)
        case isFalse hlead =>
          split at h
          case isTrue => exact absurd h (by simp)
          case isFalse hsubj =>
            split at h
            case h_2 hreg => exact absurd h (by simp)
            case h_1 school2 ps store3 hreg =>
              simp only [Prod.mk.injEq, SchoolRegResult.ok.injEq] at h
              obtain ⟨⟨hsch, -⟩, hst⟩ := h
              obtain ⟨hschools, hparts, hlen, hq, hsub⟩ :=
                registerSchoolWithMembers_some rng fuel ids now store nm mems
                  school2 ps store3 hreg
              obtain ⟨ms, -, hmems, hms5⟩ := parseSchoolBody_ok emailOk body nm mems heq
              rw [← hst, ← hsch]
              refine ⟨hschools, ?_, hq, hsub⟩
              rw [hparts]
              simp [hlen, hmems, hms5]
  · intro res store2 h hne
    rw [postSchoolsRegister] at h
    split at h
    · exact (Prod.ext_iff.mp h).2.symm
    · split at h
      case h_1 issues heq => exact (Prod.ext_iff.mp h).2.symm
      case h_2 nm mems heq =>
        split at h
        case isTrue => exact (Prod.ext_iff.mp h).2.symm
        case isFalse hlead =>
          split at h
          case isTrue => exact (Prod.ext_iff.mp h).2.symm
          case isFalse hsubj =>
            split at h
            case h_1 school2 ps store3 hreg =>
              exact absurd ((Prod.ext_iff.mp h).1.symm) (hne _ _)
            case h_2 hreg => exact (Prod.ext_iff.mp h).2.symm

/-- C3 witness: the Lincoln High request with five valid members succeeds
and appends exactly one school row and five participant rows to the empty
store. -/
theorem claim_C3_witness :
    c3resultStore.schools = emptyStore.schools ++ [c3school] ∧
    c3resultStore.participants.length = emptyStore.participants.length + 5 :=
  have h := (claim_C3_school_registration_atomic (fun _ => true) (fun n => n) 5
    ["sch1", "m1", "m2", "m3", "m4", "m5"] 0 openSettings emptyStore c3body).1
    c3school c3views c3resultStore (by decide)
  ⟨h.1, h.2.1⟩

end QuizSite
